import Mathlib

/-!
Shallow embedding of the two command-line tools of this repository:

* `src/compare-dns.py` — batch DNS comparator: reads parsed CSV rows,
  resolves each (name, type) request against two endpoints, normalizes
  (lowercase, lexicographic sort) and compares the answer lists, and
  routes outcomes to counters and output artifacts.
* `src/deduplicate.py` — order-preserving line deduplication filter.

Modelling conventions:
* DNS resolution is an opaque external call; it is a parameter
  `String → String → ResOutcome` (per endpoint), where `ResOutcome.ok`
  models a successful `resolve` returning the textual answers and
  `ResOutcome.err e` models a raised exception whose `str()` is `e`.
* Each output file and the console is a `List String` of printed lines.
  Raw `sys.stdout.write` spinner glyphs and the every-100-records
  progress fragment are cosmetic byte-level writes, not lines, and are
  not modelled; the `loopCount` increment inside `spin` is modelled.
* Python `str.lower` / `str.strip` / `str.startswith` / lexicographic
  `sorted` are modelled by `pyLower` / `pyStrip` / `pyStartsWith` /
  `List.insertionSort` over the code-point order `strLE`, which agree
  with Python on the ASCII data the tool handles.
* CSV rows arrive already field-split (`csv.reader` output), i.e. as
  `List String`; blank physical lines give `[]`.
-/

/-- Outcome of one resolution call `res.resolve(name, type)`:
either the list of answers (their `str()` forms) or a raised exception
carrying its error text. -/
inductive ResOutcome where
  | ok : List String → ResOutcome
  | err : String → ResOutcome
deriving DecidableEq, Repr

/-- 1 for a failed resolution call, 0 for a successful one. -/
def ResOutcome.errCount : ResOutcome → Nat
  | .ok _ => 0
  | .err _ => 1

/-- The mutable run state of `compare-dns.py`: the three global counters
and the five output artifacts plus the console, each as the list of lines
printed to it so far. -/
structure RunState where
  loopCount : Nat
  exceptionCount : Nat
  mismatchCount : Nat
  console : List String
  logfile : List String
  identicalLog : List String
  exceptionLog : List String
  errlog : List String
  problems : List String
deriving DecidableEq, Repr

/-- The all-zero, all-empty initial state (before the run header). -/
def emptyState : RunState :=
  { loopCount := 0, exceptionCount := 0, mismatchCount := 0,
    console := [], logfile := [], identicalLog := [],
    exceptionLog := [], errlog := [], problems := [] }

/-- Python's `f"{s:>16}"`-style right alignment: pad with spaces on the
left up to the width (no padding when already at least that wide). -/
def rjust (w : Nat) (s : String) : String :=
  String.mk (List.replicate (w - s.length) ' ') ++ s

/-- The single-quote character, used by Python's `repr` of strings. -/
def squot : Char := Char.ofNat 39

/-- Python's rendering of the one-element list `[s]` in an f-string,
as in `f"Exception from {ip1}: ..."` where `ip1 = [sys.argv[1]]`. -/
def pyListRepr (s : String) : String :=
  "[" ++ String.singleton squot ++ s ++ String.singleton squot ++ "]"

/-- Python's rendering of a list of strings in an f-string, as in
`f"    {ip1[0]:>16}: {answer1}"`. -/
def pyStrListRepr (l : List String) : String :=
  "[" ++ String.intercalate ", " (l.map (fun s => String.singleton squot ++ s ++ String.singleton squot)) ++ "]"

/-- Python `str.lower()`: lowercase every character. -/
def pyLower (s : String) : String :=
  String.mk (s.data.map Char.toLower)

/-- Python `str.strip()`: drop leading and trailing whitespace. -/
def pyStrip (s : String) : String :=
  String.mk (((s.data.dropWhile Char.isWhitespace).reverse.dropWhile Char.isWhitespace).reverse)

/-- Python `s.startswith(pre)`. -/
def pyStartsWith (s pre : String) : Bool :=
  pre.data.isPrefixOf s.data

/-- Lexicographic comparison of character sequences by code point, as
Python's `<=` on `str` behaves. -/
def lexLE : List Char → List Char → Bool
  | [], _ => true
  | _ :: _, [] => false
  | a :: as, b :: bs =>
      if a.toNat = b.toNat then lexLE as bs else decide (a.toNat < b.toNat)

/-- Python `<=` on strings: lexicographic by code point. -/
def strLE (a b : String) : Bool :=
  lexLE a.data b.data

instance strLE_decidableRel : DecidableRel (fun a b : String => strLE a b = true) :=
  fun _ _ => instDecidableEqBool _ _

/-- `answer1 = sorted([str(a).lower() for a in a1])` (compare-dns.py
lines 143 and 153): lowercase every answer string, then sort
lexicographically. -/
def sortedLower (l : List String) : List String :=
  List.insertionSort (fun a b => strLE a b = true) (l.map pyLower)

/-- `a1 = [f"bad response \"{ex1}\""]` (compare-dns.py lines 141/151):
the single failure-marker string embedding the error text. -/
def failureMarker (e : String) : String :=
  "bad response \"" ++ e ++ "\""

/-- The raw answer list produced by one resolution attempt: the
resolver's answers on success, the singleton failure marker on failure. -/
def rawAnswers : ResOutcome → List String
  | .ok l => l
  | .err e => [failureMarker e]

/-- The comparison outcome of compare-dns.py line 156
(`if answer1 != answer2`). -/
inductive ComparisonOutcome where
  | Identical : ComparisonOutcome
  | Mismatch : ComparisonOutcome
deriving DecidableEq, Repr

/-- The equality rule of compare-dns.py lines 143–156 applied to the two
raw answer lists: `Identical` iff the lowercase-normalized, sorted
sequences are element-wise equal. -/
def compareAnswers (raw1 raw2 : List String) : ComparisonOutcome :=
  if sortedLower raw1 = sortedLower raw2 then .Identical else .Mismatch

/-- `f"Exception from {ip}: {recName} {recType}: \"{ex}\""`
(compare-dns.py lines 140/150); `ip` is the singleton Python list. -/
def excLine (ip n t e : String) : String :=
  s!"Exception from {pyListRepr ip}: {n} {t}: \"{e}\""

/-- `f"    {ip[0]:>16}: {answer}"` (compare-dns.py lines 160/161/168/169). -/
def answerLine (ip : String) (answer : List String) : String :=
  s!"    {rjust 16 ip}: {pyStrListRepr answer}"

/-- The exception-log lines produced by one resolution attempt: none on
success, one on failure (compare-dns.py lines 140/150). -/
def excEntries (ip n t : String) : ResOutcome → List String
  | .ok _ => []
  | .err e => [excLine ip n t e]

/-- compare-dns.py lines 135–169: resolve one parsed record against both
endpoints, normalize, compare, and route the outcome. -/
def processRecord (r1 r2 : String → String → ResOutcome) (ip1 ip2 n t : String)
    (st : RunState) : RunState :=
  -- Lookup in resolver 1 (lines 136–143)
  let o1 := r1 n t
  let st1 := match o1 with
    | .ok _ => st
    | .err e =>
        { st with exceptionCount := st.exceptionCount + 1,
                  exceptionLog := st.exceptionLog ++ [excLine ip1 n t e] }
  let answer1 := sortedLower (rawAnswers o1)
  -- Lookup in resolver 2 (lines 146–153)
  let o2 := r2 n t
  let st2 := match o2 with
    | .ok _ => st1
    | .err e =>
        { st1 with exceptionCount := st1.exceptionCount + 1,
                   exceptionLog := st1.exceptionLog ++ [excLine ip2 n t e] }
  let answer2 := sortedLower (rawAnswers o2)
  -- Compare answers (lines 156–165)
  let st3 :=
    if answer1 ≠ answer2 then
      { st2 with mismatchCount := st2.mismatchCount + 1,
                 logfile := st2.logfile ++ [s!"{n} {t}: mismatch"],
                 errlog := st2.errlog ++
                   [s!"{n} {t}:", answerLine ip1 answer1, answerLine ip2 answer2],
                 problems := st2.problems ++ [s!"{n},{t}"] }
    else
      { st2 with logfile := st2.logfile ++ [s!"{n} {t}: OK identical"],
                 identicalLog := st2.identicalLog ++ [n] }
  -- Log raw responses (lines 168–169)
  { st3 with logfile := st3.logfile ++ [answerLine ip1 answer1, answerLine ip2 answer2] }

/-- compare-dns.py line 117: blank rows (`[]` from csv.reader),
whitespace-only first fields, and rows whose first field starts with
`#` are skipped silently. -/
def skipRow (row : List String) : Bool :=
  row.isEmpty || pyStrip (row.headD "") == "" || pyStartsWith (row.headD "") "#"

/-- `f"Ignoring bad data at line {lineNumber}: \"{exIndex}\""`
(compare-dns.py line 129); a row with fewer than two fields raises
`IndexError: list index out of range` at `line[1]`. -/
def badDataMsg (i : Nat) : String :=
  s!"Ignoring bad data at line {i + 1}: \"list index out of range\""

/-- One iteration of the main loop (compare-dns.py lines 115–169) on the
row with enumerate-index `i`. `spin` (lines 30–41) increments
`loopCount` before the fields are extracted. -/
def processRow (r1 r2 : String → String → ResOutcome) (ip1 ip2 : String)
    (i : Nat) (row : List String) (st : RunState) : RunState :=
  if skipRow row then st
  else
    -- spin(spinner): loopCount += 1 (line 120, spin at lines 30–41)
    let st0 := { st with loopCount := st.loopCount + 1 }
    -- print("", file=logfile) (line 121)
    let st1 := { st0 with logfile := st0.logfile ++ [""] }
    if row.length < 2 then
      -- IndexError at line[1] (lines 123–133)
      { st1 with console := st1.console ++ [badDataMsg i],
                 logfile := st1.logfile ++ [badDataMsg i],
                 exceptionLog := st1.exceptionLog ++ [badDataMsg i] }
    else
      processRecord r1 r2 ip1 ip2 (pyStrip (row.headD "")) (pyStrip (row.getD 1 "")) st1

/-- The main loop over the enumerated CSV rows (compare-dns.py
lines 115–169). -/
def runLoop (r1 r2 : String → String → ResOutcome) (ip1 ip2 : String) :
    Nat → List (List String) → RunState → RunState
  | _, [], st => st
  | i, row :: rest, st =>
      runLoop r1 r2 ip1 ip2 (i + 1) rest (processRow r1 r2 ip1 ip2 i row st)

/-- `f"Finished. {loopCount} records tested, {mismatchCount} mismatched,
{exceptionCount} exceptions."` (compare-dns.py lines 173–174). -/
def finishedLine (st : RunState) : String :=
  s!"Finished. {st.loopCount} records tested, {st.mismatchCount} mismatched, {st.exceptionCount} exceptions."

/-- The run header printed to the console and mirrored into the run log
(compare-dns.py lines 90–109), parameterized by the timestamp string. -/
def headerLines (ip1 ip2 ts : String) : List String :=
  [s!"Starting DNS compare between {pyListRepr ip1} versus {pyListRepr ip2}",
   s!"Log file: output/{ts}_compare-dns.log",
   s!"Errors logged in: output/{ts}_compare-dns.errors",
   s!"Exceptions logged in: output/{ts}_compare-dns.exceptions",
   s!"Problem items logged in: output/{ts}_problems.csv",
   s!"Identical items logged in: output/{ts}_identical.txt"]

/-- The whole run of compare-dns.py (lines 84–174): header, main loop,
final output. Note lines 173–174: both final prints go to stdout (no
`file=` argument), after the `with` block has closed the log file. -/
def runMain (r1 r2 : String → String → ResOutcome) (ip1 ip2 ts : String)
    (rows : List (List String)) : RunState :=
  let st0 := { emptyState with
                 console := [""] ++ headerLines ip1 ip2 ts ++ ["-----------------------------\n"],
                 logfile := headerLines ip1 ip2 ts ++ ["-----------------------------"] }
  let st1 := runLoop r1 r2 ip1 ip2 0 rows st0
  { st1 with console := st1.console ++ [finishedLine st1, finishedLine st1] }

/-!
## deduplicate.py
-/

/-- The loop body of `deduplicate_lines` (deduplicate.py lines 12–18):
write each line not seen before, remembering seen lines. The Python
`set` is modelled as the list of its elements. -/
def dedupGo (seen : List String) : List String → List String
  | [] => []
  | l :: ls => if l ∈ seen then dedupGo seen ls
               else l :: dedupGo (l :: seen) ls

/-- `deduplicate_lines` (deduplicate.py lines 8–21) at the level of the
line sequence: the lines written to the output file, in order. -/
def deduplicate_lines (lines : List String) : List String :=
  dedupGo [] lines

/-- Python text-mode line iteration: split a file's text into lines,
each keeping its `\n` terminator; a final line without a terminator is
yielded as-is. -/
def pyLinesAux (acc : List Char) : List Char → List (List Char)
  | [] => if acc.isEmpty then [] else [acc.reverse]
  | c :: cs =>
      if c = '\n' then (acc.reverse ++ ['\n']) :: pyLinesAux [] cs
      else pyLinesAux (c :: acc) cs

/-- The lines of a file's text, as Python's `for line in infile` yields
them (terminators kept). -/
def pyLines (s : String) : List String :=
  (pyLinesAux [] s.data).map (fun cs => String.mk cs)

/-- The specification's description of the dedup output, written from
the spec's words: "the output contains exactly the first occurrence of
each distinct line, in first-seen order" — fold left, appending each
line the first time it appears. -/
def firstOccurrences (lines : List String) : List String :=
  lines.foldl (fun acc l => if l ∈ acc then acc else acc ++ [l]) []

/-!
## Order properties of the code-point comparison
-/

theorem char_eq_of_toNat_eq {a b : Char} (h : a.toNat = b.toNat) : a = b :=
  Char.eq_of_val_eq (UInt32.ext h)

theorem lexLE_total (as : List Char) : ∀ bs, lexLE as bs = true ∨ lexLE bs as = true := by
  induction as with
  | nil => intro bs; exact Or.inl rfl
  | cons a as ih =>
    intro bs
    cases bs with
    | nil => exact Or.inr rfl
    | cons b bs =>
      simp only [lexLE]
      rcases Nat.lt_trichotomy a.toNat b.toNat with h | h | h
      · left; rw [if_neg (Nat.ne_of_lt h)]; exact decide_eq_true h
      · rw [if_pos h, if_pos h.symm]; exact ih bs
      · right; rw [if_neg (Nat.ne_of_lt h)]; exact decide_eq_true h

theorem lexLE_trans (as : List Char) :
    ∀ bs cs, lexLE as bs = true → lexLE bs cs = true → lexLE as cs = true := by
  induction as with
  | nil => intro bs cs _ _; rfl
  | cons a as ih =>
    intro bs cs h1 h2
    cases bs with
    | nil => simp [lexLE] at h1
    | cons b bs =>
      cases cs with
      | nil => simp [lexLE] at h2
      | cons c cs =>
        simp only [lexLE] at h1 h2 ⊢
        by_cases hab : a.toNat = b.toNat
        · rw [if_pos hab] at h1
          by_cases hbc : b.toNat = c.toNat
          · rw [if_pos (hab.trans hbc)]
            rw [if_pos hbc] at h2
            exact ih bs cs h1 h2
          · rw [if_neg hbc] at h2
            have h2' := of_decide_eq_true h2
            rw [if_neg (by omega : ¬ a.toNat = c.toNat)]
            exact decide_eq_true (by omega)
        · rw [if_neg hab] at h1
          have h1' := of_decide_eq_true h1
          by_cases hbc : b.toNat = c.toNat
          · rw [if_neg (by omega : ¬ a.toNat = c.toNat)]
            exact decide_eq_true (by omega)
          · rw [if_neg hbc] at h2
            have h2' := of_decide_eq_true h2
            rw [if_neg (by omega : ¬ a.toNat = c.toNat)]
            exact decide_eq_true (by omega)

theorem lexLE_antisymm (as : List Char) :
    ∀ bs, lexLE as bs = true → lexLE bs as = true → as = bs := by
  induction as with
  | nil =>
    intro bs _ h2
    cases bs with
    | nil => rfl
    | cons b bs => simp [lexLE] at h2
  | cons a as ih =>
    intro bs h1 h2
    cases bs with
    | nil => simp [lexLE] at h1
    | cons b bs =>
      simp only [lexLE] at h1 h2
      by_cases hab : a.toNat = b.toNat
      · rw [if_pos hab] at h1
        rw [if_pos hab.symm] at h2
        rw [char_eq_of_toNat_eq hab, ih bs h1 h2]
      · rw [if_neg hab] at h1
        rw [if_neg (fun h => hab h.symm)] at h2
        have h1' := of_decide_eq_true h1
        have h2' := of_decide_eq_true h2
        omega

instance strLE_isTotal : IsTotal String (fun a b => strLE a b = true) :=
  ⟨fun a b => lexLE_total a.data b.data⟩

instance strLE_isTrans : IsTrans String (fun a b => strLE a b = true) :=
  ⟨fun a b c => lexLE_trans a.data b.data c.data⟩

instance strLE_isAntisymm : IsAntisymm String (fun a b => strLE a b = true) := by
  constructor
  intro a b h1 h2
  cases a with
  | mk da =>
    cases b with
    | mk db => exact congrArg String.mk (lexLE_antisymm da db h1 h2)

/-- Sorting is invariant under permutation of the input: the heart of
order-insensitivity of the comparison. -/
theorem sortedLower_eq_of_perm {l1 l2 : List String} (h : l1.Perm l2) :
    sortedLower l1 = sortedLower l2 := by
  unfold sortedLower
  exact List.eq_of_perm_of_sorted
    (((List.perm_insertionSort _ _).trans (h.map pyLower)).trans
      (List.perm_insertionSort _ _).symm)
    (List.sorted_insertionSort _ _) (List.sorted_insertionSort _ _)

/-- The sorted normalization is a permutation of the normalized input. -/
theorem sortedLower_perm (l : List String) :
    (sortedLower l).Perm (l.map pyLower) :=
  List.perm_insertionSort _ _

/-!
## Normal form of the per-record processing
-/

/-- `processRecord` in closed form: both resolution calls contribute
their exception entries unconditionally, then exactly one of the two
comparison branches fires. -/
theorem processRecord_spec (r1 r2 : String → String → ResOutcome) (ip1 ip2 n t : String)
    (st : RunState) :
    processRecord r1 r2 ip1 ip2 n t st =
      (let answer1 := sortedLower (rawAnswers (r1 n t))
       let answer2 := sortedLower (rawAnswers (r2 n t))
       let stE : RunState :=
         { st with
             exceptionCount := st.exceptionCount + (r1 n t).errCount + (r2 n t).errCount,
             exceptionLog := st.exceptionLog ++ excEntries ip1 n t (r1 n t) ++
               excEntries ip2 n t (r2 n t) }
       if answer1 ≠ answer2 then
         { stE with mismatchCount := stE.mismatchCount + 1,
                    logfile := stE.logfile ++
                      [s!"{n} {t}: mismatch", answerLine ip1 answer1, answerLine ip2 answer2],
                    errlog := stE.errlog ++
                      [s!"{n} {t}:", answerLine ip1 answer1, answerLine ip2 answer2],
                    problems := stE.problems ++ [s!"{n},{t}"] }
       else
         { stE with logfile := stE.logfile ++
                      [s!"{n} {t}: OK identical", answerLine ip1 answer1, answerLine ip2 answer2],
                    identicalLog := stE.identicalLog ++ [n] }) := by
  cases h1 : r1 n t <;> cases h2 : r2 n t <;>
    simp only [processRecord, h1, h2, ResOutcome.errCount, excEntries] <;>
    split <;>
    simp [List.append_assoc]

/-- `processRecord` never touches the loop counter. -/
theorem processRecord_loopCount (r1 r2 : String → String → ResOutcome)
    (ip1 ip2 n t : String) (st : RunState) :
    (processRecord r1 r2 ip1 ip2 n t st).loopCount = st.loopCount := by
  simp only [processRecord_spec]
  split <;> rfl

/-- `processRecord` never touches the console. -/
theorem processRecord_console (r1 r2 : String → String → ResOutcome)
    (ip1 ip2 n t : String) (st : RunState) :
    (processRecord r1 r2 ip1 ip2 n t st).console = st.console := by
  simp only [processRecord_spec]
  split <;> rfl

/-- A skipped row (blank, whitespace-only first field, or comment)
leaves the state untouched. -/
theorem processRow_skip (r1 r2 : String → String → ResOutcome) (ip1 ip2 : String)
    (i : Nat) (row : List String) (st : RunState) (h : skipRow row = true) :
    processRow r1 r2 ip1 ip2 i row st = st := by
  simp [processRow, h]

/-- A malformed non-skipped row (fewer than two fields): the spinner has
already incremented `loopCount`, then the `IndexError` is caught and the
parse-error message goes to console, run log, and exceptions log. -/
theorem processRow_malformed (r1 r2 : String → String → ResOutcome) (ip1 ip2 : String)
    (i : Nat) (row : List String) (st : RunState)
    (h : skipRow row = false) (hlen : row.length < 2) :
    processRow r1 r2 ip1 ip2 i row st =
      { st with loopCount := st.loopCount + 1,
                console := st.console ++ [badDataMsg i],
                logfile := st.logfile ++ ["", badDataMsg i],
                exceptionLog := st.exceptionLog ++ [badDataMsg i] } := by
  simp [processRow, h, hlen]

/-- A well-formed non-skipped row: the spinner increments `loopCount`,
the blank line goes to the run log, and the record is processed. -/
theorem processRow_valid (r1 r2 : String → String → ResOutcome) (ip1 ip2 : String)
    (i : Nat) (row : List String) (st : RunState)
    (h : skipRow row = false) (hlen : 2 ≤ row.length) :
    processRow r1 r2 ip1 ip2 i row st =
      processRecord r1 r2 ip1 ip2 (pyStrip (row.headD "")) (pyStrip (row.getD 1 ""))
        { st with loopCount := st.loopCount + 1, logfile := st.logfile ++ [""] } := by
  simp [processRow, h, Nat.not_lt.mpr hlen]

/-- Each non-skipped row — malformed or valid — bumps `loopCount` by
exactly one; skipped rows leave it unchanged. -/
theorem processRow_loopCount (r1 r2 : String → String → ResOutcome) (ip1 ip2 : String)
    (i : Nat) (row : List String) (st : RunState) :
    (processRow r1 r2 ip1 ip2 i row st).loopCount =
      st.loopCount + (if skipRow row then 0 else 1) := by
  cases h : skipRow row with
  | true => rw [processRow_skip r1 r2 ip1 ip2 i row st h]; rfl
  | false =>
    rcases Nat.lt_or_ge row.length 2 with hlen | hlen
    · rw [processRow_malformed r1 r2 ip1 ip2 i row st h hlen]; rfl
    · rw [processRow_valid r1 r2 ip1 ip2 i row st h hlen, processRecord_loopCount]; rfl

/-- At the end of the loop, `loopCount` has grown by the number of rows
that are not blank/whitespace/comment — malformed rows included. -/
theorem runLoop_loopCount (r1 r2 : String → String → ResOutcome) (ip1 ip2 : String) :
    ∀ (rows : List (List String)) (i : Nat) (st : RunState),
      (runLoop r1 r2 ip1 ip2 i rows st).loopCount =
        st.loopCount + rows.countP (fun row => !skipRow row) := by
  intro rows
  induction rows with
  | nil => intro i st; simp [runLoop]
  | cons row rest ih =>
    intro i st
    rw [runLoop, ih, processRow_loopCount]
    rw [List.countP_cons]
    cases h : skipRow row <;> (simp [h]; try omega)

/-!
## Deduplication lemmas
-/

/-- The seen-set loop and the first-occurrence fold agree, as long as
the seen set holds exactly the elements already emitted. -/
theorem dedupGo_eq_foldl :
    ∀ (ls seen acc : List String), (∀ x, x ∈ seen ↔ x ∈ acc) →
      acc ++ dedupGo seen ls =
        List.foldl (fun a l => if l ∈ a then a else a ++ [l]) acc ls := by
  intro ls
  induction ls with
  | nil => intro seen acc _; simp [dedupGo]
  | cons l ls ih =>
    intro seen acc hiff
    by_cases h : l ∈ seen
    · rw [dedupGo, if_pos h, List.foldl_cons, if_pos ((hiff l).mp h)]
      exact ih seen acc hiff
    · rw [dedupGo, if_neg h, List.foldl_cons,
          if_neg (fun hx => h ((hiff l).mpr hx))]
      have hstep : acc ++ l :: dedupGo (l :: seen) ls =
          (acc ++ [l]) ++ dedupGo (l :: seen) ls := by
        simp
      rw [hstep]
      apply ih
      intro x
      simp only [List.mem_cons, List.mem_append, List.mem_singleton, hiff x]
      tauto

/-- The loop of `deduplicate_lines` emits exactly the first occurrence
of each distinct line, in first-seen order. -/
theorem deduplicate_lines_eq_firstOccurrences (lines : List String) :
    deduplicate_lines lines = firstOccurrences lines := by
  have h := dedupGo_eq_foldl lines [] [] (by simp)
  simpa [deduplicate_lines, firstOccurrences] using h

/-!
## Claims
-/

/-- C2: the comparison of two resolution results is insensitive to the
original order of answers but sensitive to multiset contents: `[A, B]`
vs `[B, A]` compare Identical; `[A, B]` vs `[A, A]` compare Mismatch
(for answers that remain distinct after lowercasing); and the results
are Identical iff their lowercase-normalized, lexicographically sorted
sequences are element-wise equal. -/
theorem c2_comparison_order_insensitive :
    (∀ raw1 raw2 : List String,
       compareAnswers raw1 raw2 = ComparisonOutcome.Identical ↔
         sortedLower raw1 = sortedLower raw2) ∧
    (∀ a b : String, compareAnswers [a, b] [b, a] = ComparisonOutcome.Identical) ∧
    (∀ a b : String, pyLower a ≠ pyLower b →
       compareAnswers [a, b] [a, a] = ComparisonOutcome.Mismatch) ∧
    (∀ (r1 r2 : String → String → ResOutcome) (ip1 ip2 n t : String) (st : RunState),
       compareAnswers (rawAnswers (r1 n t)) (rawAnswers (r2 n t)) =
           ComparisonOutcome.Identical ↔
         (processRecord r1 r2 ip1 ip2 n t st).identicalLog = st.identicalLog ++ [n]) := by
  refine ⟨?_, ?_, ?_, ?_⟩
  · intro raw1 raw2
    unfold compareAnswers
    split
    · exact iff_of_true rfl (by assumption)
    · exact iff_of_false (fun hc => ComparisonOutcome.noConfusion hc) (by assumption)
  · intro a b
    unfold compareAnswers
    rw [if_pos (sortedLower_eq_of_perm (List.Perm.swap b a []))]
  · intro a b hne
    unfold compareAnswers
    rw [if_neg ?_]
    intro heq
    have h1 := sortedLower_perm [a, b]
    have h2 := sortedLower_perm [a, a]
    simp only [List.map_cons, List.map_nil] at h1 h2
    have hperm : List.Perm [pyLower a, pyLower b] [pyLower a, pyLower a] :=
      (h1.symm.trans (heq ▸ h2))
    have hb : pyLower b ∈ ([pyLower a, pyLower a] : List String) :=
      hperm.subset (by simp)
    rcases List.mem_cons.mp hb with h | h
    · exact hne h.symm
    · exact hne (List.mem_singleton.mp h).symm
  · intro r1 r2 ip1 ip2 n t st
    unfold compareAnswers
    simp only [processRecord_spec]
    split
    · rename_i heq
      rw [if_neg (not_not_intro heq)]
      exact iff_of_true rfl rfl
    · refine iff_of_false (fun hc => ComparisonOutcome.noConfusion hc) ?_
      intro hlog
      exact absurd (congrArg List.length hlog) (by simp)

/-- C2 witness: concrete instances of the order-insensitivity and
multiset-sensitivity facts. -/
theorem c2_witness :
    compareAnswers ["B", "a"] ["a", "B"] = ComparisonOutcome.Identical ∧
    compareAnswers ["a", "b"] ["a", "a"] = ComparisonOutcome.Mismatch :=
  ⟨c2_comparison_order_insensitive.2.1 "B" "a",
   c2_comparison_order_insensitive.2.2.1 "a" "b" (by decide)⟩

/-- C8: the deduplication tool's output contains exactly the first
occurrence of each distinct line, in first-seen order; in particular
input lines `a\nb\na\nc` produce output `a\nb\nc`. -/
theorem c8_dedup_first_seen_order :
    (∀ lines : List String, deduplicate_lines lines = firstOccurrences lines) ∧
    deduplicate_lines (pyLines "a\nb\na\nc") = ["a\n", "b\n", "c"] ∧
    String.join (deduplicate_lines (pyLines "a\nb\na\nc")) = "a\nb\nc" :=
  ⟨deduplicate_lines_eq_firstOccurrences, by decide, by decide⟩

/-- C10: duplicate detection compares whole lines including their
terminators, so a final line without a trailing newline is never a
duplicate of an earlier identical line that has one: both are kept. -/
theorem c10_dedup_terminator_sensitive :
    (∀ c : String, c ++ "\n" ≠ c ∧
       deduplicate_lines [c ++ "\n", c] = [c ++ "\n", c]) ∧
    deduplicate_lines (pyLines "a\na") = ["a\n", "a"] := by
  constructor
  · intro c
    have hne : c ++ "\n" ≠ c := by
      intro h
      have hlen := congrArg String.length h
      rw [String.length_append] at hlen
      have h1 : ("\n" : String).length = 1 := by decide
      omega
    have hne' : c ≠ c ++ "\n" := Ne.symm hne
    exact ⟨hne, by simp [deduplicate_lines, dedupGo, hne']⟩
  · decide

/-- C5 (code bug): at the end of a run that reaches normal completion,
the final summary line is printed twice to the console and never to the
main run log — compare-dns.py lines 173–174 are two identical `print`
calls without `file=logfile` (the log file is already closed there),
although every other console message is mirrored into the log. -/
theorem c5_final_summary_console_only :
    (runMain (fun _ _ => ResOutcome.ok ["x"]) (fun _ _ => ResOutcome.ok ["x"])
        "1.1.1.1" "2.2.2.2" "20250101-000000" [["example.com", "A"]]).console.count
      (finishedLine (runMain (fun _ _ => ResOutcome.ok ["x"]) (fun _ _ => ResOutcome.ok ["x"])
        "1.1.1.1" "2.2.2.2" "20250101-000000" [["example.com", "A"]])) = 2 ∧
    finishedLine (runMain (fun _ _ => ResOutcome.ok ["x"]) (fun _ _ => ResOutcome.ok ["x"])
        "1.1.1.1" "2.2.2.2" "20250101-000000" [["example.com", "A"]]) ∉
      (runMain (fun _ _ => ResOutcome.ok ["x"]) (fun _ _ => ResOutcome.ok ["x"])
        "1.1.1.1" "2.2.2.2" "20250101-000000" [["example.com", "A"]]).logfile := by
  decide

/-- C1 counterexample: the single malformed row `onlyname` (one field,
not blank, not a comment) is skipped with a parse-error entry, yet
`loopCount` — the "records tested" counter of the final summary — rises
from 0 to 1, because `spin` increments it before the fields are
extracted; no comparison outcome is produced for the row. -/
theorem c1_counterexample :
    skipRow ["onlyname"] = false ∧ List.length ["onlyname"] < 2 ∧
    (runLoop (fun _ _ => ResOutcome.ok ["x"]) (fun _ _ => ResOutcome.ok ["x"])
        "1.1.1.1" "2.2.2.2" 0 [["onlyname"]] emptyState).loopCount = 1 ∧
    (runLoop (fun _ _ => ResOutcome.ok ["x"]) (fun _ _ => ResOutcome.ok ["x"])
        "1.1.1.1" "2.2.2.2" 0 [["onlyname"]] emptyState).exceptionLog = [badDataMsg 0] ∧
    (runLoop (fun _ _ => ResOutcome.ok ["x"]) (fun _ _ => ResOutcome.ok ["x"])
        "1.1.1.1" "2.2.2.2" 0 [["onlyname"]] emptyState).identicalLog = [] ∧
    (runLoop (fun _ _ => ResOutcome.ok ["x"]) (fun _ _ => ResOutcome.ok ["x"])
        "1.1.1.1" "2.2.2.2" 0 [["onlyname"]] emptyState).problems = [] ∧
    (runLoop (fun _ _ => ResOutcome.ok ["x"]) (fun _ _ => ResOutcome.ok ["x"])
        "1.1.1.1" "2.2.2.2" 0 [["onlyname"]] emptyState).mismatchCount = 0 := by
  decide

/-- C1 (amended): a malformed row leaves a parse-error entry on the
console, the run log, and the exceptions log, and processing continues,
but `loopCount` (reported as "records tested") increases by 1 because
the spinner update precedes field extraction; consequently, at end of
run `loopCount` equals the number of non-skipped rows, malformed rows
included. -/
theorem c1_amended_malformed_rows :
    (∀ (r1 r2 : String → String → ResOutcome) (ip1 ip2 : String) (i : Nat)
       (row : List String) (st : RunState),
       skipRow row = false → row.length < 2 →
       processRow r1 r2 ip1 ip2 i row st =
         { st with loopCount := st.loopCount + 1,
                   console := st.console ++ [badDataMsg i],
                   logfile := st.logfile ++ ["", badDataMsg i],
                   exceptionLog := st.exceptionLog ++ [badDataMsg i] }) ∧
    (∀ (r1 r2 : String → String → ResOutcome) (ip1 ip2 : String)
       (rows : List (List String)) (i : Nat) (st : RunState),
       (runLoop r1 r2 ip1 ip2 i rows st).loopCount =
         st.loopCount + rows.countP (fun row => !skipRow row)) :=
  ⟨fun r1 r2 ip1 ip2 i row st h hlen => processRow_malformed r1 r2 ip1 ip2 i row st h hlen,
   fun r1 r2 ip1 ip2 rows i st => runLoop_loopCount r1 r2 ip1 ip2 rows i st⟩

/-- C1 amended witness: the malformed-row equation at the concrete row
`["onlyname"]`. -/
theorem c1_amended_witness :
    processRow (fun _ _ => ResOutcome.ok ["x"]) (fun _ _ => ResOutcome.ok ["x"])
        "1.1.1.1" "2.2.2.2" 0 ["onlyname"] emptyState =
      { emptyState with loopCount := 1, console := [badDataMsg 0],
                        logfile := ["", badDataMsg 0], exceptionLog := [badDataMsg 0] } := by
  have h := c1_amended_malformed_rows.1 (fun _ _ => ResOutcome.ok ["x"])
    (fun _ _ => ResOutcome.ok ["x"]) "1.1.1.1" "2.2.2.2" 0 ["onlyname"] emptyState
    (by decide) (by decide)
  rw [h]
  rfl

/-- C3 counterexample: endpoint 1 fails with error text `timeout`,
endpoint 2 succeeds with the non-empty answer list
`["bad response "timeout""]` — a legitimate single answer string that
happens to equal the failure marker. The outcome is Identical, not
Mismatch, although resolution failed on exactly one endpoint and
succeeded with a non-empty answer set on the other (the exception
counter does increase by 1). -/
theorem c3_counterexample :
    (["bad response \"timeout\""] : List String) ≠ [] ∧
    (processRecord (fun _ _ => ResOutcome.err "timeout")
        (fun _ _ => ResOutcome.ok ["bad response \"timeout\""])
        "1.1.1.1" "2.2.2.2" "example.com" "A" emptyState).exceptionCount = 1 ∧
    (processRecord (fun _ _ => ResOutcome.err "timeout")
        (fun _ _ => ResOutcome.ok ["bad response \"timeout\""])
        "1.1.1.1" "2.2.2.2" "example.com" "A" emptyState).mismatchCount = 0 ∧
    (processRecord (fun _ _ => ResOutcome.err "timeout")
        (fun _ _ => ResOutcome.ok ["bad response \"timeout\""])
        "1.1.1.1" "2.2.2.2" "example.com" "A" emptyState).identicalLog = ["example.com"] ∧
    (processRecord (fun _ _ => ResOutcome.err "timeout")
        (fun _ _ => ResOutcome.ok ["bad response \"timeout\""])
        "1.1.1.1" "2.2.2.2" "example.com" "A" emptyState).problems = [] := by
  decide

/-- C3 (amended): when resolution fails on exactly one endpoint and
succeeds with a non-empty answer set on the other, the outcome is
Mismatch — provided the successful endpoint's normalized answer list
differs from the normalized singleton failure marker — and the run's
exception counter increases by exactly 1. -/
theorem c3_amended_single_failure :
    ∀ (r1 r2 : String → String → ResOutcome) (ip1 ip2 n t : String) (st : RunState)
      (e : String) (l : List String),
      (r1 n t = ResOutcome.err e → r2 n t = ResOutcome.ok l → l ≠ [] →
        sortedLower l ≠ sortedLower [failureMarker e] →
        (processRecord r1 r2 ip1 ip2 n t st).mismatchCount = st.mismatchCount + 1 ∧
        (processRecord r1 r2 ip1 ip2 n t st).problems = st.problems ++ [s!"{n},{t}"] ∧
        (processRecord r1 r2 ip1 ip2 n t st).exceptionCount = st.exceptionCount + 1) ∧
      (r1 n t = ResOutcome.ok l → r2 n t = ResOutcome.err e → l ≠ [] →
        sortedLower l ≠ sortedLower [failureMarker e] →
        (processRecord r1 r2 ip1 ip2 n t st).mismatchCount = st.mismatchCount + 1 ∧
        (processRecord r1 r2 ip1 ip2 n t st).problems = st.problems ++ [s!"{n},{t}"] ∧
        (processRecord r1 r2 ip1 ip2 n t st).exceptionCount = st.exceptionCount + 1) := by
  intro r1 r2 ip1 ip2 n t st e l
  constructor
  · intro h1 h2 _ hneq
    simp only [processRecord_spec, h1, h2, rawAnswers, ResOutcome.errCount]
    rw [if_pos (Ne.symm hneq)]
    exact ⟨rfl, rfl, rfl⟩
  · intro h1 h2 _ hneq
    simp only [processRecord_spec, h1, h2, rawAnswers, ResOutcome.errCount]
    rw [if_pos hneq]
    exact ⟨rfl, rfl, rfl⟩

/-- C3 amended witness: a timeout on endpoint 1 against a real answer
`10.0.0.1` on endpoint 2 takes the Mismatch path and adds one
exception. -/
theorem c3_amended_witness :
    (processRecord (fun _ _ => ResOutcome.err "timeout") (fun _ _ => ResOutcome.ok ["10.0.0.1"])
        "1.1.1.1" "2.2.2.2" "example.com" "A" emptyState).mismatchCount =
      emptyState.mismatchCount + 1 ∧
    (processRecord (fun _ _ => ResOutcome.err "timeout") (fun _ _ => ResOutcome.ok ["10.0.0.1"])
        "1.1.1.1" "2.2.2.2" "example.com" "A" emptyState).problems =
      emptyState.problems ++ ["example.com,A"] ∧
    (processRecord (fun _ _ => ResOutcome.err "timeout") (fun _ _ => ResOutcome.ok ["10.0.0.1"])
        "1.1.1.1" "2.2.2.2" "example.com" "A" emptyState).exceptionCount =
      emptyState.exceptionCount + 1 :=
  (c3_amended_single_failure (fun _ _ => ResOutcome.err "timeout")
    (fun _ _ => ResOutcome.ok ["10.0.0.1"]) "1.1.1.1" "2.2.2.2" "example.com" "A"
    emptyState "timeout" ["10.0.0.1"]).1 rfl rfl (by decide) (by decide)

/-- C4: for every valid (well-formed, non-skipped) row, exactly one of
the Identical path and the Mismatch path is taken — never both, never
neither — and `loopCount` increases by exactly 1 for that row. -/
theorem c4_exactly_one_outcome_path :
    ∀ (r1 r2 : String → String → ResOutcome) (ip1 ip2 : String) (i : Nat)
      (row : List String) (st : RunState),
      skipRow row = false → 2 ≤ row.length →
      (processRow r1 r2 ip1 ip2 i row st).loopCount = st.loopCount + 1 ∧
      Xor'
        ((processRow r1 r2 ip1 ip2 i row st).mismatchCount = st.mismatchCount + 1 ∧
         (processRow r1 r2 ip1 ip2 i row st).identicalLog = st.identicalLog)
        ((processRow r1 r2 ip1 ip2 i row st).mismatchCount = st.mismatchCount ∧
         (processRow r1 r2 ip1 ip2 i row st).identicalLog =
           st.identicalLog ++ [pyStrip (row.headD "")]) := by
  intro r1 r2 ip1 ip2 i row st h hlen
  rw [processRow_valid r1 r2 ip1 ip2 i row st h hlen]
  simp only [processRecord_spec]
  split
  · refine ⟨rfl, Or.inl ⟨⟨rfl, rfl⟩, ?_⟩⟩
    intro hc
    have hm := hc.1
    simp at hm
  · refine ⟨rfl, Or.inr ⟨⟨rfl, rfl⟩, ?_⟩⟩
    intro hc
    have hm := hc.1
    simp at hm

/-- C4 witness: a valid row with equal answers takes exactly the
Identical path and bumps `loopCount` once. -/
theorem c4_witness :
    (processRow (fun _ _ => ResOutcome.ok ["x"]) (fun _ _ => ResOutcome.ok ["x"])
        "1.1.1.1" "2.2.2.2" 0 ["example.com", "A"] emptyState).loopCount =
      emptyState.loopCount + 1 ∧
    Xor'
      ((processRow (fun _ _ => ResOutcome.ok ["x"]) (fun _ _ => ResOutcome.ok ["x"])
          "1.1.1.1" "2.2.2.2" 0 ["example.com", "A"] emptyState).mismatchCount =
          emptyState.mismatchCount + 1 ∧
       (processRow (fun _ _ => ResOutcome.ok ["x"]) (fun _ _ => ResOutcome.ok ["x"])
          "1.1.1.1" "2.2.2.2" 0 ["example.com", "A"] emptyState).identicalLog =
          emptyState.identicalLog)
      ((processRow (fun _ _ => ResOutcome.ok ["x"]) (fun _ _ => ResOutcome.ok ["x"])
          "1.1.1.1" "2.2.2.2" 0 ["example.com", "A"] emptyState).mismatchCount =
          emptyState.mismatchCount ∧
       (processRow (fun _ _ => ResOutcome.ok ["x"]) (fun _ _ => ResOutcome.ok ["x"])
          "1.1.1.1" "2.2.2.2" 0 ["example.com", "A"] emptyState).identicalLog =
          emptyState.identicalLog ++ [pyStrip (List.headD ["example.com", "A"] "")]) :=
  c4_exactly_one_outcome_path (fun _ _ => ResOutcome.ok ["x"]) (fun _ _ => ResOutcome.ok ["x"])
    "1.1.1.1" "2.2.2.2" 0 ["example.com", "A"] emptyState (by decide) (by decide)

/-- C6: for every processed record, both endpoints' resolution calls
are accounted for — the exception counter gains the failure count of
each endpoint independently, and each endpoint's failure is logged even
when the other endpoint also failed or succeeded. -/
theorem c6_both_endpoints_attempted :
    ∀ (r1 r2 : String → String → ResOutcome) (ip1 ip2 n t : String) (st : RunState),
      (processRecord r1 r2 ip1 ip2 n t st).exceptionCount =
        st.exceptionCount + (r1 n t).errCount + (r2 n t).errCount ∧
      (∀ e, r1 n t = ResOutcome.err e →
        excLine ip1 n t e ∈ (processRecord r1 r2 ip1 ip2 n t st).exceptionLog) ∧
      (∀ e, r2 n t = ResOutcome.err e →
        excLine ip2 n t e ∈ (processRecord r1 r2 ip1 ip2 n t st).exceptionLog) := by
  intro r1 r2 ip1 ip2 n t st
  simp only [processRecord_spec]
  split
  · refine ⟨rfl, ?_, ?_⟩
    · intro e he
      simp [he, excEntries]
    · intro e he
      simp [he, excEntries]
  · refine ⟨rfl, ?_, ?_⟩
    · intro e he
      simp [he, excEntries]
    · intro e he
      simp [he, excEntries]

/-- C6 witness: with both endpoints failing, endpoint 2's failure is
still logged and both failures are counted. -/
theorem c6_witness :
    (processRecord (fun _ _ => ResOutcome.err "boom1") (fun _ _ => ResOutcome.err "boom2")
        "1.1.1.1" "2.2.2.2" "example.com" "A" emptyState).exceptionCount =
      emptyState.exceptionCount + (ResOutcome.err "boom1").errCount +
        (ResOutcome.err "boom2").errCount ∧
    excLine "1.1.1.1" "example.com" "A" "boom1" ∈
      (processRecord (fun _ _ => ResOutcome.err "boom1") (fun _ _ => ResOutcome.err "boom2")
        "1.1.1.1" "2.2.2.2" "example.com" "A" emptyState).exceptionLog ∧
    excLine "2.2.2.2" "example.com" "A" "boom2" ∈
      (processRecord (fun _ _ => ResOutcome.err "boom1") (fun _ _ => ResOutcome.err "boom2")
        "1.1.1.1" "2.2.2.2" "example.com" "A" emptyState).exceptionLog :=
  ⟨(c6_both_endpoints_attempted (fun _ _ => ResOutcome.err "boom1")
      (fun _ _ => ResOutcome.err "boom2") "1.1.1.1" "2.2.2.2" "example.com" "A" emptyState).1,
   (c6_both_endpoints_attempted (fun _ _ => ResOutcome.err "boom1")
      (fun _ _ => ResOutcome.err "boom2") "1.1.1.1" "2.2.2.2" "example.com" "A" emptyState).2.1
     "boom1" rfl,
   (c6_both_endpoints_attempted (fun _ _ => ResOutcome.err "boom1")
      (fun _ _ => ResOutcome.err "boom2") "1.1.1.1" "2.2.2.2" "example.com" "A" emptyState).2.2
     "boom2" rfl⟩

/-- C7: on the Mismatch path the mismatch counter increases by 1, a
mismatch line is appended to the run log, the record header plus both
endpoints' answer lists go to the error log, and `name,type` is
appended to the problems CSV; with input `example.com,A` and differing
single answers, the problems file holds exactly `example.com,A`. -/
theorem c7_mismatch_artifacts :
    (∀ (r1 r2 : String → String → ResOutcome) (ip1 ip2 n t : String) (st : RunState),
       sortedLower (rawAnswers (r1 n t)) ≠ sortedLower (rawAnswers (r2 n t)) →
       processRecord r1 r2 ip1 ip2 n t st =
         { st with
             exceptionCount := st.exceptionCount + (r1 n t).errCount + (r2 n t).errCount,
             exceptionLog := st.exceptionLog ++ excEntries ip1 n t (r1 n t) ++
               excEntries ip2 n t (r2 n t),
             mismatchCount := st.mismatchCount + 1,
             logfile := st.logfile ++ [s!"{n} {t}: mismatch",
               answerLine ip1 (sortedLower (rawAnswers (r1 n t))),
               answerLine ip2 (sortedLower (rawAnswers (r2 n t)))],
             errlog := st.errlog ++ [s!"{n} {t}:",
               answerLine ip1 (sortedLower (rawAnswers (r1 n t))),
               answerLine ip2 (sortedLower (rawAnswers (r2 n t)))],
             problems := st.problems ++ [s!"{n},{t}"] }) ∧
    ((runMain (fun _ _ => ResOutcome.ok ["93.184.216.34"])
        (fun _ _ => ResOutcome.ok ["93.184.216.35"]) "1.1.1.1" "2.2.2.2" "20250101-000000"
        [["example.com", "A"]]).problems = ["example.com,A"] ∧
     (runMain (fun _ _ => ResOutcome.ok ["93.184.216.34"])
        (fun _ _ => ResOutcome.ok ["93.184.216.35"]) "1.1.1.1" "2.2.2.2" "20250101-000000"
        [["example.com", "A"]]).mismatchCount = 1) := by
  constructor
  · intro r1 r2 ip1 ip2 n t st hne
    simp only [processRecord_spec]
    rw [if_pos hne]
  · constructor <;> decide

/-- C7 witness: the concrete mismatch `93.184.216.34` vs
`93.184.216.35` appends `example.com,A` to the problems file. -/
theorem c7_witness :
    (processRecord (fun _ _ => ResOutcome.ok ["93.184.216.34"])
        (fun _ _ => ResOutcome.ok ["93.184.216.35"])
        "1.1.1.1" "2.2.2.2" "example.com" "A" emptyState).problems = ["example.com,A"] := by
  have h := c7_mismatch_artifacts.1 (fun _ _ => ResOutcome.ok ["93.184.216.34"])
    (fun _ _ => ResOutcome.ok ["93.184.216.35"]) "1.1.1.1" "2.2.2.2" "example.com" "A"
    emptyState (by decide)
  rw [h]
  decide

/-- C9: when resolution fails on both endpoints with byte-identical
error text, the two failure markers normalize identically, so the
outcome is Identical: the record's name is appended to the identical
log, the mismatch counter and problems file are untouched, and the
exception counter still increases by 2. -/
theorem c9_double_identical_failure :
    ∀ (r1 r2 : String → String → ResOutcome) (ip1 ip2 n t : String) (st : RunState)
      (e : String),
      r1 n t = ResOutcome.err e → r2 n t = ResOutcome.err e →
      (processRecord r1 r2 ip1 ip2 n t st).identicalLog = st.identicalLog ++ [n] ∧
      (processRecord r1 r2 ip1 ip2 n t st).mismatchCount = st.mismatchCount ∧
      (processRecord r1 r2 ip1 ip2 n t st).exceptionCount = st.exceptionCount + 2 ∧
      (processRecord r1 r2 ip1 ip2 n t st).problems = st.problems := by
  intro r1 r2 ip1 ip2 n t st e h1 h2
  simp only [processRecord_spec, h1, h2, ResOutcome.errCount]
  rw [if_neg (fun hc => hc rfl)]
  exact ⟨rfl, rfl, rfl, rfl⟩

/-- C9 witness: both endpoints timing out with the same text put the
record in the identical log and count two exceptions. -/
theorem c9_witness :
    (processRecord (fun _ _ => ResOutcome.err "boom") (fun _ _ => ResOutcome.err "boom")
        "1.1.1.1" "2.2.2.2" "example.com" "A" emptyState).identicalLog = ["example.com"] ∧
    (processRecord (fun _ _ => ResOutcome.err "boom") (fun _ _ => ResOutcome.err "boom")
        "1.1.1.1" "2.2.2.2" "example.com" "A" emptyState).exceptionCount = 2 := by
  have h := c9_double_identical_failure (fun _ _ => ResOutcome.err "boom")
    (fun _ _ => ResOutcome.err "boom") "1.1.1.1" "2.2.2.2" "example.com" "A" emptyState
    "boom" rfl rfl
  exact ⟨h.1, h.2.2.1⟩
